import Mathlib

/-!
Verification development for the WhatsApp auto-responder repository.

The repository contains the message-intake decision engine and the
self-command interpreter in two current variants of the main file:
`index.js` (no phone-number normalization; contact keys are the serialized
JID) and the variant with a `normalizeNumber` helper (called the `P2`
variant below; it normalizes VIP numbers and catches send errors inside
`sendAutoReply`).  Both variants are embedded below as pure functions over
an explicit configuration record; timestamps are integers (epoch millis),
JavaScript truthiness of strings and numbers is made explicit, and the
`Map` / `Set` objects are association lists with set semantics.

Log statements, display names and the chat-protocol plumbing (QR pairing,
HTTP dashboard transport, socket broadcasting) have no effect on the
decision logic and are not modelled; the delivery success of the external
`message.reply` primitive is an explicit boolean on the message event.
-/

/-- JavaScript string disjunction `a || b` where `a : string | null`:
the left operand wins unless it is null/undefined or the empty string. -/
def jsOrOpt (a b : Option String) : Option String :=
  match a with
  | some s => if s = "" then b else some s
  | none => b

/-- JavaScript `a || d` collapsing a nullable string to a default:
`d` is returned when `a` is null/undefined or empty. -/
def truthyOr (a : Option String) (d : String) : String :=
  match a with
  | some s => if s = "" then d else s
  | none => d

/-- The P2 variant `normalizeNumber(n)`: null for null/undefined or empty
input, otherwise strip every non-digit character and return null when no
digit remains, else the digit string. -/
def normalizeNumber : Option String → Option String
  | none => none
  | some s =>
      if s = "" then none
      else
        let ds := s.data.filter Char.isDigit
        if ds.isEmpty then none else some (String.mk ds)

/-- The `contact.id` object: `_serialized` JID and its `user` part. -/
structure ContactId where
  serialized : Option String
  user : Option String
deriving DecidableEq

/-- The resolved contact of a message; `id` may be absent. Display names
(`name`, `pushname`) feed only log lines and are omitted. -/
structure Contact where
  id : Option ContactId
deriving DecidableEq

/-- The resolved chat of a message: group flag, archived flag and the
serialized chat id `chat.id?._serialized` (used as the group reply key). -/
structure Chat where
  isGroup : Bool
  archived : Bool
  id : Option String
deriving DecidableEq

/-- An inbound message event together with its resolved chat and contact.
`sendOk` records whether the external `message.reply` delivery succeeds
when attempted. -/
structure Msg where
  fromMe : Bool
  body : String
  chat : Chat
  contact : Contact
  sendOk : Bool
deriving DecidableEq

/-- The mutable configuration owned by the responder: away flag, away
message, the VIP set, the `lastReplies` map (key, epoch millis) and the
configured reply window `replyDelay`. Keys of `lastReplies` are
`Option String` because the group key `chat.id?._serialized` can be
undefined in JavaScript. -/
structure Config where
  isAwayMode : Bool
  awayMessage : String
  vipContacts : List String
  lastReplies : List (Option String × Int)
  replyDelay : Int
deriving DecidableEq

/-- Outcome of one intake decision: routed to the command interpreter,
no action, auto-reply attempted (with the delivery result), or the send
threw and the error was caught before the throttle was recorded. -/
inductive Outcome where
  | command
  | ignore
  | replied (delivered : Bool)
  | failed
deriving DecidableEq

/-- `Map.get(k)` on the `lastReplies` association list. -/
def tGet (m : List (Option String × Int)) (k : Option String) : Option Int :=
  match m.find? (fun p => p.1 == k) with
  | some p => some p.2
  | none => none

/-- `Map.set(k, v)`: overwrite an existing entry in place, else append. -/
def tSet (m : List (Option String × Int)) (k : Option String) (v : Int) :
    List (Option String × Int) :=
  if (m.find? (fun p => p.1 == k)).isSome then
    m.map (fun p => if p.1 == k then (p.1, v) else p)
  else
    m ++ [(k, v)]

/-- `Set.add(x)`: no-op when the element is already present. -/
def sAdd (s : List String) (x : String) : List String :=
  if s.contains x then s else s ++ [x]

/-- `Set.delete(x)`. -/
def sDelete (s : List String) (x : String) : List String :=
  s.filter (fun y => y ≠ x)

/-- The P2 variant `contact.id?.user || null`. -/
def contactNumberOf (c : Contact) : Option String :=
  match c.id with
  | some cid =>
      match cid.user with
      | some u => if u = "" then none else some u
      | none => none
  | none => none

/-- The index.js contact key
`(contact.id && (contact.id._serialized || contact.id.user)) || 'unknown-contact'`. -/
def contactIdOf (c : Contact) : String :=
  match c.id with
  | some cid => truthyOr (jsOrOpt cid.serialized cid.user) "unknown-contact"
  | none => "unknown-contact"

/-- The P2 VIP guard: only for direct chats, and only when the contact
number normalizes; membership is checked on the normalized key. -/
def vipExemptP2 (cfg : Config) (msg : Msg) : Bool :=
  !msg.chat.isGroup &&
    (match normalizeNumber (contactNumberOf msg.contact) with
     | some nrm => cfg.vipContacts.contains nrm
     | none => false)

/-- The index.js VIP guard `!isGroup && this.vipContacts.has(contactId)`:
no normalization; membership is checked on the raw contact id. -/
def vipExemptIdx (cfg : Config) (msg : Msg) : Bool :=
  !msg.chat.isGroup && cfg.vipContacts.contains (contactIdOf msg.contact)

/-- The P2 reply key `isGroup ? groupId : (contactNumber || 'unknown-contact')`.
`contactNumberOf` never returns an empty string, so the JavaScript falsy
default collapses to `getD`. -/
def replyKeyP2 (msg : Msg) : Option String :=
  if msg.chat.isGroup then msg.chat.id
  else some ((contactNumberOf msg.contact).getD "unknown-contact")

/-- The index.js reply key `isGroup ? groupId : contactId`. -/
def replyKeyIdx (msg : Msg) : Option String :=
  if msg.chat.isGroup then msg.chat.id
  else some (contactIdOf msg.contact)

/-- The throttle guard `lastReplyTime && now - lastReplyTime < this.replyDelay`
shared by all variants: a missing entry is `undefined` (falsy) and a stored
timestamp `0` is likewise falsy, so neither suppresses. -/
def suppressCheck (lastReplyTime : Option Int) (now delay : Int) : Bool :=
  match lastReplyTime with
  | none => false
  | some t => t != 0 && decide (now - t < delay)

/-- Modelled from the spec: the Reply Throttle operation
`shouldSuppress(conversationKey, nowMillis, windowMillis)`, true iff an
entry exists for the key and `nowMillis - entry < windowMillis`; this
function follows the words of the spec and is compared against the code
guard `suppressCheck`. -/
def shouldSuppressSpec (m : List (Option String × Int)) (k : Option String)
    (now window : Int) : Bool :=
  match tGet m k with
  | none => false
  | some t => decide (now - t < window)

/-- The P2 variant `handleIncomingMessage`: command routing, away-mode and
self gates, archived skip, VIP exemption, throttle check, then
`sendAutoReply` (which catches delivery errors internally) followed
unconditionally by `lastReplies.set(replyKey, now)`. -/
def handleIncomingMessageP2 (cfg : Config) (msg : Msg) (now : Int) :
    Config × Outcome :=
  if msg.fromMe && msg.body.startsWith "/" then
    (cfg, Outcome.command)
  else if !cfg.isAwayMode then (cfg, Outcome.ignore)
  else if msg.fromMe then (cfg, Outcome.ignore)
  else if msg.chat.archived then (cfg, Outcome.ignore)
  else if vipExemptP2 cfg msg then (cfg, Outcome.ignore)
  else if suppressCheck (tGet cfg.lastReplies (replyKeyP2 msg)) now cfg.replyDelay then
    (cfg, Outcome.ignore)
  else
    ({ cfg with lastReplies := tSet cfg.lastReplies (replyKeyP2 msg) now },
     Outcome.replied msg.sendOk)

/-- The index.js `handleIncomingMessage`: same gate order, but
`await message.reply(...)` runs directly inside the try block, so a throw
from the send is caught by the surrounding handler and the subsequent
`lastReplies.set(replyKey, now)` is skipped. -/
def handleIncomingMessageIdx (cfg : Config) (msg : Msg) (now : Int) :
    Config × Outcome :=
  if msg.fromMe && msg.body.startsWith "/" then
    (cfg, Outcome.command)
  else if !cfg.isAwayMode then (cfg, Outcome.ignore)
  else if msg.fromMe then (cfg, Outcome.ignore)
  else if msg.chat.archived then (cfg, Outcome.ignore)
  else if vipExemptIdx cfg msg then (cfg, Outcome.ignore)
  else if suppressCheck (tGet cfg.lastReplies (replyKeyIdx msg)) now cfg.replyDelay then
    (cfg, Outcome.ignore)
  else if msg.sendOk then
    ({ cfg with lastReplies := tSet cfg.lastReplies (replyKeyIdx msg) now },
     Outcome.replied true)
  else
    (cfg, Outcome.failed)

/-- JavaScript `String.prototype.trim` on the character list: strip
leading and trailing whitespace. -/
def jsTrim (l : List Char) : List Char :=
  ((l.dropWhile Char.isWhitespace).reverse.dropWhile Char.isWhitespace).reverse

/-- JavaScript `split(' ')` on a character list, by structural recursion
(so that closed terms reduce inside the kernel): split at every single
space, keeping empty fragments, and always yield at least one fragment. -/
def splitSpAux : List Char → List Char → List String
  | [], acc => [String.mk acc.reverse]
  | c :: cs, acc =>
      if c = ' ' then String.mk acc.reverse :: splitSpAux cs []
      else splitSpAux cs (c :: acc)

/-- Tokenization shared by both interpreters:
`message.body.trim().slice(1).split(' ')`. -/
def botParts (body : String) : List String :=
  splitSpAux ((jsTrim body.data).drop 1) []

/-- JavaScript `toLowerCase()` via the character list (the core
`String.map` is defined by well-founded recursion and would not reduce in
the kernel). -/
def jsToLower (s : String) : String :=
  String.mk (s.data.map Char.toLower)

/-- The selected command token `parts[0].toLowerCase()`; `split` always
yields at least one element, so the JavaScript index never faults. -/
def botCmd (body : String) : String :=
  jsToLower ((botParts body).headD "")

/-- The parameter rest `parts.slice(1).join(' ')`. -/
def botParams (body : String) : String :=
  String.intercalate " " ((botParts body).drop 1)

/-- Help text of the P2 interpreter. -/
def p2HelpText : String :=
  "🍃 *Lazy — Auto-Responder*\n\n• /help — Show this menu\n• /status — Current status\n• /on — Turn away mode ON\n• /off — Turn away mode OFF\n• /toggle — Toggle away mode\n• /msg <text> — Update away message\n• /vip add <number> — Add VIP (DM only)\n• /vip remove <number> — Remove VIP\n• /vip list — Show VIPs\n• /clear — Clear reply history (resets 12h timers)"

/-- Status snapshot of the P2 interpreter. -/
def p2StatusText (cfg : Config) : String :=
  "📊 *Status*\n\n• Away Mode: " ++ (if cfg.isAwayMode then "🟢 ON" else "🔴 OFF") ++
    "\n• VIPs: " ++ toString cfg.vipContacts.length ++
    "\n• Reply Keys: " ++ toString cfg.lastReplies.length ++ " (contacts + groups)" ++
    "\n• Window: 12h per contact (DM), 12h per group" ++
    "\n• Message: \"" ++ cfg.awayMessage ++ "\""

/-- VIP list response shared shape: insertion-ordered bullets or the
placeholder. -/
def vipListText (vips : List String) : String :=
  if vips.isEmpty then "⭐ No VIPs yet"
  else "⭐ *VIPs (DM only):*\n\n" ++
    String.intercalate "\n" (vips.map (fun v => "• " ++ v))

/-- The P2 variant `handleBotCommand` as a pure step from configuration and
body to the updated configuration and the single response string (the
response is then delivered by the external `message.reply`).  The dispatch
is total: no branch can throw, matching the catch-all boundary of the
source. -/
def handleBotCommandP2 (cfg : Config) (body : String) : Config × String :=
  let parts := botParts body
  let cmd := botCmd body
  let params := botParams body
  if cmd = "help" then (cfg, p2HelpText)
  else if cmd = "status" then (cfg, p2StatusText cfg)
  else if cmd = "on" then
    ({ cfg with isAwayMode := true }, "✅ Away mode ON — auto-replies active.")
  else if cmd = "off" then
    ({ cfg with isAwayMode := false }, "✅ Away mode OFF — auto-replies paused.")
  else if cmd = "toggle" then
    ({ cfg with isAwayMode := !cfg.isAwayMode },
     "✅ Away mode " ++ (if !cfg.isAwayMode then "ON" else "OFF"))
  else if cmd = "msg" then
    if params = "" then
      (cfg, "❌ Please provide a message. Example: /msg In a meeting, back soon.")
    else
      ({ cfg with awayMessage := params },
       "✏️ Message updated:\n\"" ++ params ++ "\"")
  else if cmd = "vip" then
    let sub := (parts.get? 1).map jsToLower
    let normalized := normalizeNumber (parts.get? 2)
    match sub, normalized with
    | some "add", some nrm =>
        ({ cfg with vipContacts := sAdd cfg.vipContacts nrm },
         "✅ VIP added: " ++ nrm)
    | some "remove", some nrm =>
        ({ cfg with vipContacts := sDelete cfg.vipContacts nrm },
         "✅ VIP removed: " ++ nrm)
    | some "list", _ => (cfg, vipListText cfg.vipContacts)
    | _, _ =>
        (cfg, "❌ Invalid VIP command.\nUsage:\n• /vip add 33123456789\n• /vip remove 33123456789\n• /vip list")
  else if cmd = "clear" then
    ({ cfg with lastReplies := [] },
     "🧹 Timers cleared — contacts & groups can receive replies again.")
  else
    (cfg, "❌ Unknown command: " ++ cmd ++ "\n\nType /help to see available commands.")

/-- Help text of the index.js interpreter. -/
def idxHelpText : String :=
  "🍃 *Lazy — Auto-Responder*\n\n• /help — Show this menu\n• /status — Current status\n• /on — Turn away mode ON\n• /off — Turn away mode OFF\n• /toggle — Toggle away mode\n• /msg <text> — Update away message\n• /vip add <number> — Add VIP (DM only)\n• /vip remove <number> — Remove VIP\n• /vip list — Show VIPs\n• /clear — Clear reply history (12h timers)"

/-- Status snapshot of the index.js interpreter. -/
def idxStatusText (cfg : Config) : String :=
  "📊 *Status*\n\n• Away Mode: " ++ (if cfg.isAwayMode then "🟢 ON" else "🔴 OFF") ++
    "\n• VIPs: " ++ toString cfg.vipContacts.length ++
    "\n• Keys in window: " ++ toString cfg.lastReplies.length ++
    "\n• Message: \"" ++ cfg.awayMessage ++ "\""

/-- The index.js `handleBotCommand`: identical dispatch except that the
`vip add` / `vip remove` branches store and remove the raw token
`parts[2]` with only a JavaScript truthiness check — no normalization. -/
def handleBotCommandIdx (cfg : Config) (body : String) : Config × String :=
  let parts := botParts body
  let cmd := botCmd body
  let params := botParams body
  if cmd = "help" then (cfg, idxHelpText)
  else if cmd = "status" then (cfg, idxStatusText cfg)
  else if cmd = "on" then
    ({ cfg with isAwayMode := true }, "✅ Away mode ON — auto-replies active.")
  else if cmd = "off" then
    ({ cfg with isAwayMode := false }, "✅ Away mode OFF — auto-replies paused.")
  else if cmd = "toggle" then
    ({ cfg with isAwayMode := !cfg.isAwayMode },
     "✅ Away mode " ++ (if !cfg.isAwayMode then "ON" else "OFF"))
  else if cmd = "msg" then
    if params = "" then
      (cfg, "❌ Provide a message, e.g. /msg In a meeting.")
    else
      ({ cfg with awayMessage := params },
       "✏️ Message updated:\n\"" ++ params ++ "\"")
  else if cmd = "vip" then
    let sub := (parts.get? 1).map jsToLower
    let num := match parts.get? 2 with
      | some s => if s = "" then none else some s
      | none => none
    match sub, num with
    | some "add", some n =>
        ({ cfg with vipContacts := sAdd cfg.vipContacts n }, "✅ VIP added: " ++ n)
    | some "remove", some n =>
        ({ cfg with vipContacts := sDelete cfg.vipContacts n },
         "✅ VIP removed: " ++ n)
    | some "list", _ => (cfg, vipListText cfg.vipContacts)
    | _, _ =>
        (cfg, "Usage:\n• /vip add 33123456789\n• /vip remove 33123456789\n• /vip list")
  else if cmd = "clear" then
    ({ cfg with lastReplies := [] },
     "🧹 Timers cleared. Contacts & groups can receive replies again.")
  else
    (cfg, "❌ Unknown command: " ++ cmd ++ "\n\nType /help.")

/-- The fixed command set of both interpreters. -/
def commandSet : List String :=
  ["help", "status", "on", "off", "toggle", "msg", "vip", "clear"]

/-- Test fixture: away mode on, default-like window, empty registries. -/
def cfgAway : Config :=
  { isAwayMode := true
    awayMessage := "Back soon"
    vipContacts := []
    lastReplies := []
    replyDelay := 43200000 }

/-- Test fixture: away mode off. -/
def cfgOff : Config :=
  { cfgAway with isAwayMode := false }

/-- Test fixture: the contact id of the DM sender +33 1 23 45 67 89 as the
messaging layer resolves it (JID user part and serialized JID). -/
def contactFr : Contact :=
  { id := some { serialized := some "33123456789@c.us", user := some "33123456789" } }

/-- Test fixture: inbound DM "hi" from that contact, deliverable reply. -/
def msgFr : Msg :=
  { fromMe := false
    body := "hi"
    chat := { isGroup := false, archived := false, id := some "33123456789@c.us" }
    contact := contactFr
    sendOk := true }

/-- Test fixture: the same DM but the reply delivery fails. -/
def msgFrFail : Msg :=
  { msgFr with sendOk := false }

/-- Test fixture: an eligible group message from the same sender. -/
def msgGrp : Msg :=
  { fromMe := false
    body := "hi"
    chat := { isGroup := true, archived := false, id := some "1234567890-111@g.us" }
    contact := contactFr
    sendOk := true }

/-- Test fixture: an archived DM from the same sender. -/
def msgArch : Msg :=
  { msgFr with chat := { isGroup := false, archived := true, id := some "33123456789@c.us" } }

/-- Test fixture: away mode on with the sender registered as VIP under the
normalized key. -/
def cfgVip : Config :=
  { cfgAway with vipContacts := ["33123456789"] }

/-- Test fixture: away mode on and a throttle entry recorded at epoch 0
for the DM sender. -/
def cfgZero : Config :=
  { cfgAway with lastReplies := [(some "33123456789", 0)] }

/-- Claim C1: for every inbound non-self message and every configuration
with away mode off, both variants of the responder policy take no action
and leave the whole configuration (in particular the throttle map)
unchanged, regardless of VIP membership, throttle contents, group/DM kind
or archived status. -/
theorem awayOff_noAction (cfg : Config) (msg : Msg) (now : Int)
    (hme : msg.fromMe = false) (haway : cfg.isAwayMode = false) :
    handleIncomingMessageP2 cfg msg now = (cfg, Outcome.ignore) ∧
    handleIncomingMessageIdx cfg msg now = (cfg, Outcome.ignore) := by
  constructor <;>
    simp [handleIncomingMessageP2, handleIncomingMessageIdx, hme, haway]

/-- Concrete instance of `awayOff_noAction`: away mode off, a fresh DM. -/
theorem awayOff_noAction_witness :
    msgFr.fromMe = false ∧ cfgOff.isAwayMode = false ∧
    handleIncomingMessageP2 cfgOff msgFr 5 = (cfgOff, Outcome.ignore) ∧
    handleIncomingMessageIdx cfgOff msgFr 5 = (cfgOff, Outcome.ignore) :=
  ⟨rfl, rfl, (awayOff_noAction cfgOff msgFr 5 rfl rfl).1,
    (awayOff_noAction cfgOff msgFr 5 rfl rfl).2⟩

/-- Claim C2 counterexample: in the away-mode-on scenario, the throttle
entry recorded at t = 0 for the DM sender +33 1 23 45 67 89 is stored under
the unprefixed key "33123456789", so no entry exists under the key
"dm:33123456789" claimed by the spec; moreover the second message from the
same sender at t = 1000 is not suppressed — a reply is sent again, because
the stored timestamp 0 is falsy in the throttle guard. -/
theorem dmScenario_claim_false :
    tGet (handleIncomingMessageP2 cfgAway msgFr 0).1.lastReplies
      (some "dm:33123456789") = none ∧
    (handleIncomingMessageP2
      (handleIncomingMessageP2 cfgAway msgFr 0).1 msgFr 1000).2 =
      Outcome.replied true := by
  decide

/-- Claim C2 amended: the first message is replied to and recorded under
key "33123456789" with timestamp 0; the second message at t = 1000 is not
suppressed (the stored 0 fails the truthiness guard): it is replied to and
the entry is overwritten with 1000. -/
theorem dmScenario_amended :
    handleIncomingMessageP2 cfgAway msgFr 0 =
      ({ cfgAway with lastReplies := [(some "33123456789", 0)] },
       Outcome.replied true) ∧
    handleIncomingMessageP2
        { cfgAway with lastReplies := [(some "33123456789", 0)] } msgFr 1000 =
      ({ cfgAway with lastReplies := [(some "33123456789", 1000)] },
       Outcome.replied true) := by
  decide

/-- Claim C3, evaluation at the failing input: with away mode on, an empty
throttle and a DM whose reply delivery fails, the P2 variant still records
the throttle entry for the conversation (its `sendAutoReply` swallows the
send error before `lastReplies.set` runs), contradicting the claim; the
index.js variant, where the throw skips the `set`, leaves the
configuration unchanged as the claim demands. -/
theorem failedSend_stillRecordsP2 :
    handleIncomingMessageP2 cfgAway msgFrFail 5 =
      ({ cfgAway with lastReplies := [(some "33123456789", 5)] },
       Outcome.replied false) ∧
    handleIncomingMessageIdx cfgAway msgFrFail 5 = (cfgAway, Outcome.failed) := by
  decide

/-- Claim C4, evaluation at the failing input: in the index.js variant,
`/vip add +33123456789` stores the raw token "+33123456789" and the
membership check compares the unnormalized contact id "33123456789@c.us",
so the two representations never collide and the VIP sender still gets a
reply; the P2 variant normalizes on both sides ("33123456789") and the
exemption fires. -/
theorem vipAdd_unnormalizedIdx :
    (handleBotCommandIdx cfgAway "/vip add +33123456789").1.vipContacts =
      ["+33123456789"] ∧
    vipExemptIdx (handleBotCommandIdx cfgAway "/vip add +33123456789").1 msgFr =
      false ∧
    (handleIncomingMessageIdx
      (handleBotCommandIdx cfgAway "/vip add +33123456789").1 msgFr 7).2 =
      Outcome.replied true ∧
    (handleBotCommandP2 cfgAway "/vip add +33123456789").1.vipContacts =
      ["33123456789"] ∧
    vipExemptP2 (handleBotCommandP2 cfgAway "/vip add +33123456789").1 msgFr =
      true := by
  decide

/-- Claim C5: VIP exemption applies only to direct conversations. In the
P2 variant, an otherwise eligible group message (away mode on, not from
self, not archived, not throttled) is replied to regardless of the VIP
registry, and a direct message whose sender normalizes to a registered VIP
key is ignored with no throttle entry. -/
theorem vipExemption_dmOnly (cfg : Config) (msg : Msg) (now : Int)
    (hme : msg.fromMe = false) (haway : cfg.isAwayMode = true)
    (harch : msg.chat.archived = false) :
    (msg.chat.isGroup = true →
      suppressCheck (tGet cfg.lastReplies (replyKeyP2 msg)) now cfg.replyDelay = false →
      handleIncomingMessageP2 cfg msg now =
        ({ cfg with lastReplies := tSet cfg.lastReplies (replyKeyP2 msg) now },
         Outcome.replied msg.sendOk)) ∧
    (∀ k, msg.chat.isGroup = false →
      normalizeNumber (contactNumberOf msg.contact) = some k →
      cfg.vipContacts.contains k = true →
      handleIncomingMessageP2 cfg msg now = (cfg, Outcome.ignore)) := by
  constructor
  · intro hg hsup
    simp [handleIncomingMessageP2, hme, haway, harch, hsup, vipExemptP2, hg]
  · intro k hg hnorm hk
    have hk2 : k ∈ cfg.vipContacts := by
      simpa using hk
    simp [handleIncomingMessageP2, hme, haway, harch, vipExemptP2, hg, hnorm,
      hk, hk2]

/-- Concrete instance of `vipExemption_dmOnly`: with the sender registered
as VIP, the group message is still replied to and the direct message is
ignored. -/
theorem vipExemption_dmOnly_witness :
    (msgGrp.fromMe = false ∧ cfgVip.isAwayMode = true ∧
      msgGrp.chat.archived = false ∧ msgGrp.chat.isGroup = true ∧
      suppressCheck (tGet cfgVip.lastReplies (replyKeyP2 msgGrp)) 3 cfgVip.replyDelay = false ∧
      handleIncomingMessageP2 cfgVip msgGrp 3 =
        ({ cfgVip with lastReplies := tSet cfgVip.lastReplies (replyKeyP2 msgGrp) 3 },
         Outcome.replied true)) ∧
    (normalizeNumber (contactNumberOf msgFr.contact) = some "33123456789" ∧
      cfgVip.vipContacts.contains "33123456789" = true ∧
      handleIncomingMessageP2 cfgVip msgFr 3 = (cfgVip, Outcome.ignore)) := by
  refine ⟨⟨rfl, rfl, rfl, rfl, by decide, ?_⟩, by decide, by decide, ?_⟩
  · exact (vipExemption_dmOnly cfgVip msgGrp 3 rfl rfl rfl).1 rfl (by decide)
  · exact (vipExemption_dmOnly cfgVip msgFr 3 rfl rfl rfl).2 "33123456789"
      rfl (by decide) (by decide)

/-- Claim C6 counterexample: for a throttle entry recorded at t = 0 with
window W = 2, the spec predicate (entry exists and now - entry < window)
holds at now = t + W - 1 = 1, yet the code guard does not suppress — the
stored 0 is falsy — and the policy replies again, so suppression is not
the claimed iff and the t, t + W - 1 scenario fails at t = 0. -/
theorem suppress_iff_claim_false :
    shouldSuppressSpec [(some "33123456789", 0)] (some "33123456789") 1 2 = true ∧
    suppressCheck (tGet [(some "33123456789", 0)] (some "33123456789")) 1 2 = false ∧
    (handleIncomingMessageP2 cfgZero msgFr 1).2 = Outcome.replied true := by
  decide

/-- Claim C6 amended: the code guard suppresses iff an entry exists for
the key, the entry is nonzero, and now minus the entry is strictly below
the window; a missing entry never suppresses; after a reply recorded at a
nonzero t, a second message at t + W - 1 is suppressed, and at t + W it is
not suppressed for any t. -/
theorem suppress_iff_nonzero_entry (m : List (Option String × Int))
    (k : Option String) (now window : Int) :
    (suppressCheck (tGet m k) now window = true ↔
      ∃ t, tGet m k = some t ∧ t ≠ 0 ∧ now - t < window) ∧
    (tGet m k = none → suppressCheck (tGet m k) now window = false) ∧
    (∀ t W : Int, t ≠ 0 → suppressCheck (some t) (t + W - 1) W = true) ∧
    (∀ t W : Int, suppressCheck (some t) (t + W) W = false) := by
  refine ⟨?_, ?_, ?_, ?_⟩
  · cases h : tGet m k with
    | none => simp [suppressCheck, h]
    | some t => simp [suppressCheck, h]
  · intro h
    simp [suppressCheck, h]
  · intro t W ht
    have harith : t + W - 1 - t < W := by omega
    simp [suppressCheck, ht, harith]
  · intro t W
    have harith : ¬ (t + W - t < W) := by omega
    simp [suppressCheck, harith]

/-- Concrete instance of `suppress_iff_nonzero_entry`: an empty throttle
never suppresses. -/
theorem suppress_iff_nonzero_entry_witness :
    tGet ([] : List (Option String × Int)) (some "a") = none ∧
    suppressCheck (tGet ([] : List (Option String × Int)) (some "a")) 9 4 = false :=
  ⟨rfl, (suppress_iff_nonzero_entry [] (some "a") 9 4).2.1 rfl⟩

/-- Claim C7: `normalizeNumber` returns null exactly on null input or
inputs with no digit (which includes the empty string); on any input with
at least one digit it returns the string of its digits, i.e. it strips
every non-digit character; and it is idempotent on every non-null
result. -/
theorem normalizeNumber_spec :
    normalizeNumber none = none ∧
    (∀ s : String, s.data.filter Char.isDigit = [] →
      normalizeNumber (some s) = none) ∧
    (∀ s : String, s.data.filter Char.isDigit ≠ [] →
      normalizeNumber (some s) = some (String.mk (s.data.filter Char.isDigit))) ∧
    (∀ s t : String, normalizeNumber (some s) = some t →
      normalizeNumber (some t) = some t) := by
  refine ⟨rfl, ?_, ?_, ?_⟩
  · intro s h
    by_cases hs : s = ""
    · simp [normalizeNumber, hs]
    · simp [normalizeNumber, hs, h]
  · intro s h
    by_cases hs : s = ""
    · subst hs
      simp at h
    · cases hd : s.data.filter Char.isDigit with
      | nil => exact absurd hd h
      | cons a l => simp [normalizeNumber, hs, hd]
  · intro s t h
    by_cases hs : s = ""
    · simp [normalizeNumber, hs] at h
    · simp only [normalizeNumber, if_neg hs] at h
      cases hd : s.data.filter Char.isDigit with
      | nil =>
          rw [hd] at h
          simp at h
      | cons a l =>
          rw [hd] at h
          simp only [List.isEmpty_cons] at h
          have ht : String.mk (a :: l) = t := by
            simpa using h
          have hdig : ∀ c ∈ a :: l, Char.isDigit c := by
            intro c hc
            rw [← hd] at hc
            exact List.of_mem_filter hc
          subst ht
          have hne : ¬ (String.mk (a :: l) = "") := by
            intro hcon
            have h2 : a :: l = ([] : List Char) := congrArg String.data hcon
            simp at h2
          have hfix : (String.mk (a :: l)).data.filter Char.isDigit = a :: l :=
            List.filter_eq_self.mpr hdig
          simp only [normalizeNumber, if_neg hne, hfix, List.isEmpty_cons]
          simp

/-- Concrete instance of `normalizeNumber_spec`: the formatted number
+33 1 23 45 67 89 strips to its digits, and normalizing the result again
is a fixed point. -/
theorem normalizeNumber_spec_witness :
    "+33 1 23 45 67 89".data.filter Char.isDigit ≠ [] ∧
    normalizeNumber (some "+33 1 23 45 67 89") =
      some (String.mk ("+33 1 23 45 67 89".data.filter Char.isDigit)) ∧
    normalizeNumber (some "33123456789") = some "33123456789" := by
  refine ⟨by decide, ?_, ?_⟩
  · exact normalizeNumber_spec.2.2.1 "+33 1 23 45 67 89" (by decide)
  · exact normalizeNumber_spec.2.2.2 "+33 1 23 45 67 89" "33123456789" (by decide)

/-- Claim C8: for every self-command whose first token is outside the
fixed command set, both interpreter variants produce exactly one
error-style response naming the unrecognized (lowercased) token and leave
the whole configuration — away flag, away message, VIP registry and
throttle map — unchanged.  The interpreters are total functions, the
shallow form of the source catch-all that converts internal errors into an
error response instead of throwing past the boundary. -/
theorem unknownCommand_response (cfg : Config) (body : String)
    (h : botCmd body ∉ commandSet) :
    handleBotCommandP2 cfg body =
      (cfg, "❌ Unknown command: " ++ botCmd body ++
        "\n\nType /help to see available commands.") ∧
    handleBotCommandIdx cfg body =
      (cfg, "❌ Unknown command: " ++ botCmd body ++ "\n\nType /help.") := by
  simp only [commandSet, List.mem_cons, List.not_mem_nil, or_false, not_or] at h
  obtain ⟨h1, h2, h3, h4, h5, h6, h7, h8⟩ := h
  constructor <;>
    simp [handleBotCommandP2, handleBotCommandIdx, h1, h2, h3, h4, h5, h6, h7, h8]

/-- Concrete instance of `unknownCommand_response`: the unknown
self-command /foo. -/
theorem unknownCommand_response_witness :
    botCmd "/foo" ∉ commandSet ∧
    handleBotCommandP2 cfgAway "/foo" =
      (cfgAway, "❌ Unknown command: " ++ botCmd "/foo" ++
        "\n\nType /help to see available commands.") ∧
    handleBotCommandIdx cfgAway "/foo" =
      (cfgAway, "❌ Unknown command: " ++ botCmd "/foo" ++ "\n\nType /help.") :=
  ⟨by decide, (unknownCommand_response cfgAway "/foo" (by decide)).1,
    (unknownCommand_response cfgAway "/foo" (by decide)).2⟩

/-- Claim C9: for every inbound non-self message whose chat is archived,
both variants of the responder policy take no action and leave the
configuration (in particular the throttle map) unchanged, whatever the
away mode, VIP registry and throttle contents. -/
theorem archived_noAction (cfg : Config) (msg : Msg) (now : Int)
    (hme : msg.fromMe = false) (harch : msg.chat.archived = true) :
    handleIncomingMessageP2 cfg msg now = (cfg, Outcome.ignore) ∧
    handleIncomingMessageIdx cfg msg now = (cfg, Outcome.ignore) := by
  by_cases haway : cfg.isAwayMode <;>
    constructor <;>
      simp [handleIncomingMessageP2, handleIncomingMessageIdx, hme, harch, haway]

/-- Concrete instance of `archived_noAction`: an archived DM with away
mode on and an otherwise eligible sender. -/
theorem archived_noAction_witness :
    msgArch.fromMe = false ∧ msgArch.chat.archived = true ∧
    handleIncomingMessageP2 cfgAway msgArch 5 = (cfgAway, Outcome.ignore) ∧
    handleIncomingMessageIdx cfgAway msgArch 5 = (cfgAway, Outcome.ignore) :=
  ⟨rfl, rfl, (archived_noAction cfgAway msgArch 5 rfl rfl).1,
    (archived_noAction cfgAway msgArch 5 rfl rfl).2⟩

/-- Claim C10: a throttle entry whose recorded timestamp is exactly 0 is
treated as absent by the truthiness guard, so it never suppresses for any
current time and window, and an otherwise eligible message from that
conversation gets a fresh reply attempt with the entry overwritten. -/
theorem zeroTimestamp_freshReply (cfg : Config) (msg : Msg) (now : Int)
    (hme : msg.fromMe = false) (haway : cfg.isAwayMode = true)
    (harch : msg.chat.archived = false) (hvip : vipExemptP2 cfg msg = false)
    (hzero : tGet cfg.lastReplies (replyKeyP2 msg) = some 0) :
    (∀ n w : Int, suppressCheck (some 0) n w = false) ∧
    handleIncomingMessageP2 cfg msg now =
      ({ cfg with lastReplies := tSet cfg.lastReplies (replyKeyP2 msg) now },
       Outcome.replied msg.sendOk) := by
  constructor
  · intro n w
    simp [suppressCheck]
  · simp [handleIncomingMessageP2, hme, haway, harch, hvip, hzero, suppressCheck]

/-- Concrete instance of `zeroTimestamp_freshReply`: the throttle holds
the DM key at timestamp 0 and the next message at t = 1000 is replied
to. -/
theorem zeroTimestamp_freshReply_witness :
    msgFr.fromMe = false ∧ cfgZero.isAwayMode = true ∧
    msgFr.chat.archived = false ∧ vipExemptP2 cfgZero msgFr = false ∧
    tGet cfgZero.lastReplies (replyKeyP2 msgFr) = some 0 ∧
    handleIncomingMessageP2 cfgZero msgFr 1000 =
      ({ cfgZero with lastReplies := tSet cfgZero.lastReplies (replyKeyP2 msgFr) 1000 },
       Outcome.replied true) := by
  refine ⟨rfl, rfl, rfl, by decide, by decide, ?_⟩
  exact (zeroTimestamp_freshReply cfgZero msgFr 1000 rfl rfl rfl
    (by decide) (by decide)).2
